import Mathlib

/-!
Verification development for the city-explorer backend (src/server.js).
The JavaScript source is shallowly embedded: each handler becomes a pure
function from its environment (current time, rows the database returned,
the upstream provider outcome) to the list of observable effects it issues
(database queries, deletes, inserts, provider fetches, HTTP responses).
-/

namespace CityExplorer

/-- A JavaScript value as it flows through this program: undefined, a string,
or a number (the numbers that matter here are integral timestamps and ids). -/
inductive JsValue where
  | undef : JsValue
  | str : String → JsValue
  | int : Int → JsValue
deriving Repr, DecidableEq

/-- JavaScript truthiness for the values above: undefined, the empty string
and 0 are falsy, everything else is truthy. -/
def jsTruthy : JsValue → Bool
  | JsValue.undef => false
  | JsValue.str s => !(s == "")
  | JsValue.int n => !(n == 0)

/-- String coercion as performed by a JS template literal. -/
def jsToString : JsValue → String
  | JsValue.undef => "undefined"
  | JsValue.str s => s
  | JsValue.int n => toString n

/-- A JS numeric value: a number or NaN. Subtracting undefined yields NaN,
and every comparison against NaN is false. -/
inductive JsNum where
  | num : Int → JsNum
  | nan : JsNum
deriving Repr, DecidableEq

/-- JS subtraction on numbers; any NaN operand gives NaN. -/
def jsSub : JsNum → JsNum → JsNum
  | JsNum.num a, JsNum.num b => JsNum.num (a - b)
  | _, _ => JsNum.nan

/-- JS strict greater-than: false whenever either side is NaN. -/
def jsGt : JsNum → JsNum → Bool
  | JsNum.num a, JsNum.num b => decide (b < a)
  | _, _ => false

/-- Coerce an optional integer (a possibly-undefined JS number) to JsNum:
undefined becomes NaN, as it does in JS arithmetic and comparisons. -/
def jsNumOfOption : Option Int → JsNum
  | some n => JsNum.num n
  | none => JsNum.nan

/-- A row as returned by the pg driver: a store-assigned id, the created_at
column (undefined when the row was inserted without one), and the remaining
columns. -/
structure Row where
  id : JsValue := JsValue.undef
  created_at : Option Int := none
  fields : List (String × JsValue) := []
deriving Repr, DecidableEq

/-- A parameterized SQL statement: the SQL text and the bound values. -/
structure SqlQuery where
  sql : String
  values : List JsValue
deriving Repr, DecidableEq

/-- The sqlInfo record the handlers build and pass to the generic DB helpers
(fields searchQuery, id, endpoint, columns, values of src/server.js). -/
structure SqlInfo where
  searchQuery : JsValue := JsValue.undef
  id : JsValue := JsValue.undef
  endpoint : String
  columns : String := ""
  values : List JsValue := []
deriving Repr, DecidableEq

/-- getDataFromDB (src/server.js lines 45-63): picks the search_query column
when sqlInfo.searchQuery is truthy, otherwise the location_id column, and
passes the value as bound parameter dollar-1. -/
def getDataFromDB (sqlInfo : SqlInfo) : SqlQuery :=
  if jsTruthy sqlInfo.searchQuery then
    { sql := "SELECT * FROM " ++ sqlInfo.endpoint ++ " WHERE search_query=$1;"
      values := [sqlInfo.searchQuery] }
  else
    { sql := "SELECT * FROM " ++ sqlInfo.endpoint ++ " WHERE location_id=$1;"
      values := [sqlInfo.id] }

/-- The placeholder list built by the for-loop in saveDataToDB and joined
with commas: dollar-1 through dollar-n. -/
def sqlPlaceholders (n : Nat) : String :=
  String.intercalate "," ((List.range n).map (fun i => "$" ++ toString (i + 1)))

/-- saveDataToDB (src/server.js lines 65-87): the searchQuery branch, used
only by the locations handler, appends RETURNING ID; the branch for all
other endpoints does not. -/
def saveDataToDB (sqlInfo : SqlInfo) : SqlQuery :=
  let sqlParams := sqlPlaceholders sqlInfo.values.length
  if jsTruthy sqlInfo.searchQuery then
    { sql := "INSERT INTO " ++ sqlInfo.endpoint ++ " (" ++ sqlInfo.columns ++
        ") VALUES (" ++ sqlParams ++ ") RETURNING ID;"
      values := sqlInfo.values }
  else
    { sql := "INSERT INTO " ++ sqlInfo.endpoint ++ " (" ++ sqlInfo.columns ++
        ") VALUES (" ++ sqlParams ++ ");"
      values := sqlInfo.values }

/-- The timeouts table inside checkTimeouts (src/server.js lines 104-110).
Its keys are singular resource names; a lookup with any other string is
undefined, modelled as none. -/
def timeouts : String → Option Int
  | "weather" => some (15 * 1000)
  | "yelp" => some (24 * 1000 * 60 * 60)
  | "movie" => some (30 * 1000 * 60 * 60 * 24)
  | "event" => some (6 * 1000 * 60 * 60)
  | "trail" => some (7 * 1000 * 60 * 60 * 24)
  | _ => none

/-- checkTimeouts (src/server.js lines 102-130). Given the rows the select
returned, it returns the value the next then-handler sees (the data, or
undefined modelled as none) together with the list of delete statements it
issued. With no rows it falls through returning undefined. With rows, age is
now minus the first row created_at (NaN when that column is undefined); if
age is greater than the timeout for sqlInfo.endpoint (a comparison that is
false when the endpoint is not a key of the table) it issues a delete and
returns undefined, otherwise it returns the data unchanged. -/
def checkTimeouts (now : Int) (sqlInfo : SqlInfo) (rows : List Row) :
    Option (List Row) × List SqlQuery :=
  match rows with
  | [] => (none, [])
  | r :: _ =>
    let ageOfResults := jsSub (JsNum.num now) (jsNumOfOption r.created_at)
    if jsGt ageOfResults (jsNumOfOption (timeouts sqlInfo.endpoint)) then
      (none, [{ sql := "DELETE FROM " ++ sqlInfo.endpoint ++ " WHERE location_id=$1;"
                values := [sqlInfo.id] }])
    else (some rows, [])

/-- The observable body of an HTTP response.send call. -/
inductive ResponseBody where
  | rows : List Row → ResponseBody
  | row : Row → ResponseBody
  | undef : ResponseBody
  | text : String → ResponseBody
  | obj : List (String × JsValue) → ResponseBody
  | objs : List (List (String × JsValue)) → ResponseBody
deriving Repr, DecidableEq

/-- One observable effect of a handler, in the order the handler issues it. -/
inductive Step where
  | dbQuery : SqlQuery → Step
  | freshCheck : String → Step
  | dbDelete : SqlQuery → Step
  | apiFetch : String → Step
  | dbInsert : SqlQuery → Step
  | send : Nat → ResponseBody → Step
deriving Repr, DecidableEq

/-- handleError (src/server.js lines 33-36): logs the error and, when a
response object was passed, sends status 500 with a fixed message. The error
value itself does not influence the response. -/
def handleError (_err : JsValue) (hasResponse : Bool) : List Step :=
  if hasResponse then [Step.send 500 (ResponseBody.text "Sorry, something went wrong")]
  else []

/-- The two JS Date formatting operations the constructors use, left abstract
since they belong to the JS runtime, not this program: toString().slice(0,15)
of a Date built from epoch milliseconds, and of a Date parsed from a string. -/
structure JsDateLib where
  fromMillis : Int → String
  fromString : String → String

/-- The request.query.data object the handlers read. -/
structure ReqData where
  id : JsValue := JsValue.undef
  latitude : String := ""
  longitude : String := ""
  search_query : String := ""

/-- The outcome of a superagent call: a resolved body holding a list of raw
records, or a rejected promise. -/
inductive Upstream (α : Type) where
  | ok : List α → Upstream α
  | err : Upstream α

/-- Raw geocode record as read by the Location constructor. -/
structure RawGeo where
  formatted_address : JsValue
  geometry_lat : JsValue
  geometry_lng : JsValue

/-- Raw Dark Sky daily record as read by the Weather constructor. -/
structure RawWeatherDay where
  summary : JsValue
  time : Int

/-- Raw Eventbrite record as read by the Event constructor. -/
structure RawEvent where
  url : JsValue
  name_text : JsValue
  start_local : String
  summary : JsValue

/-- Raw TMDB record as read by the Movie constructor. -/
structure RawMovie where
  original_title : JsValue
  overview : String
  votes_average : JsValue
  vote_count : JsValue
  poster_path : String
  popularity : JsValue
  release_date : JsValue

/-- Raw Yelp record as read by the Yelp constructor. -/
structure RawYelp where
  name : JsValue
  image_url : JsValue
  price : JsValue
  rating : JsValue
  url : JsValue

/-- Location constructor (src/server.js lines 315-320): an object with these
properties in insertion order. It sets no created_at. -/
def Location (query : JsValue) (location : RawGeo) : List (String × JsValue) :=
  [("search_query", query),
   ("formatted_query", location.formatted_address),
   ("latitude", location.geometry_lat),
   ("longitude", location.geometry_lng)]

/-- Weather constructor (src/server.js lines 322-326): sets created_at to
Date.now(). -/
def Weather (jsd : JsDateLib) (now : Int) (day : RawWeatherDay) : List (String × JsValue) :=
  [("forecast", day.summary),
   ("time", JsValue.str (jsd.fromMillis (day.time * 1000))),
   ("created_at", JsValue.int now)]

/-- Event constructor (src/server.js lines 328-333): link, name, event_date
and summary only — it sets no created_at, unlike Weather, Movie and Yelp. -/
def Event (jsd : JsDateLib) (ev : RawEvent) : List (String × JsValue) :=
  [("link", ev.url),
   ("name", ev.name_text),
   ("event_date", JsValue.str (jsd.fromString ev.start_local)),
   ("summary", ev.summary)]

/-- Movie constructor (src/server.js lines 335-344): sets created_at to
Date.now(). -/
def Movie (now : Int) (movie : RawMovie) : List (String × JsValue) :=
  [("title", movie.original_title),
   ("overview", JsValue.str (movie.overview.take 750)),
   ("average_votes", movie.votes_average),
   ("total_votes", movie.vote_count),
   ("image_url", JsValue.str ("https://image.tmdb.org/t/p/original" ++ movie.poster_path)),
   ("popularity", movie.popularity),
   ("released_on", movie.release_date),
   ("created_at", JsValue.int now)]

/-- Yelp constructor (src/server.js lines 346-353): sets created_at to
Date.now(). -/
def Yelp (now : Int) (yelp : RawYelp) : List (String × JsValue) :=
  [("name", yelp.name),
   ("image_url", yelp.image_url),
   ("price", yelp.price),
   ("rating", yelp.rating),
   ("url", yelp.url),
   ("created_at", JsValue.int now)]

/-- Object.keys(summary).join() — the column list of an object. -/
def joinKeys (obj : List (String × JsValue)) : String :=
  String.intercalate "," (obj.map Prod.fst)

/-- searchToLatLong (src/server.js lines 132-163): selects from locations by
search_query; on any hit it sends the first row directly, with no call to
checkTimeouts; on a miss it fetches the geocoder, throws NO DATA on an empty
result list (caught by handleError), and otherwise builds one Location,
inserts it, patches in the id the insert returned and sends the object. -/
def searchToLatLong (geoKey : String) (queryData : JsValue) (db : List Row)
    (up : Upstream RawGeo) (assignedId : JsValue) : List Step :=
  let sqlInfo : SqlInfo := { searchQuery := queryData, endpoint := "locations" }
  Step.dbQuery (getDataFromDB sqlInfo) ::
    match db with
    | r :: _ => [Step.send 200 (ResponseBody.row r)]
    | [] =>
      Step.apiFetch ("https://maps.googleapis.com/maps/api/geocode/json?address=" ++
          jsToString queryData ++ "&key=" ++ geoKey) ::
        match up with
        | Upstream.err => handleError (JsValue.str "upstream error") true
        | Upstream.ok [] => handleError (JsValue.str "NO DATA") true
        | Upstream.ok (g :: _) =>
          let location := Location queryData g
          [Step.dbInsert (saveDataToDB { sqlInfo with
              columns := joinKeys location, values := location.map Prod.snd }),
           Step.send 200 (ResponseBody.obj (location ++ [("id", assignedId)]))]

/-- getWeather (src/server.js lines 166-201): selects from weathers by
location_id, pipes the result through checkTimeouts, sends result.rows when
checkTimeouts returned the data, and otherwise fetches Dark Sky, throwing
NO DATA on an empty daily list (caught by handleError); on data it builds a
Weather summary per day with location_id appended, inserts each, and sends
the summaries. -/
def getWeather (jsd : JsDateLib) (now : Int) (apiKey : String) (req : ReqData)
    (db : List Row) (up : Upstream RawWeatherDay) : List Step :=
  let sqlInfo : SqlInfo := { id := req.id, endpoint := "weathers" }
  let checked := checkTimeouts now sqlInfo db
  Step.dbQuery (getDataFromDB sqlInfo) :: Step.freshCheck "weathers" ::
    (checked.2.map Step.dbDelete ++
      match checked.1 with
      | some result => [Step.send 200 (ResponseBody.rows result)]
      | none =>
        Step.apiFetch ("https://api.darksky.net/forecast/" ++ apiKey ++ "/" ++
            req.latitude ++ "," ++ req.longitude) ::
          match up with
          | Upstream.err => handleError (JsValue.str "upstream error") true
          | Upstream.ok [] => handleError (JsValue.str "NO DATA") true
          | Upstream.ok (d :: ds) =>
            let weatherSummaries := (d :: ds).map
              (fun day => Weather jsd now day ++ [("location_id", req.id)])
            weatherSummaries.map (fun s => Step.dbInsert (saveDataToDB { sqlInfo with
                columns := joinKeys s, values := s.map Prod.snd })) ++
              [Step.send 200 (ResponseBody.objs weatherSummaries)])

/-- getEvents (src/server.js lines 203-238): same pipeline as getWeather over
the events table and the Eventbrite provider. -/
def getEvents (jsd : JsDateLib) (now : Int) (apiKey : String) (req : ReqData)
    (db : List Row) (up : Upstream RawEvent) : List Step :=
  let sqlInfo : SqlInfo := { id := req.id, endpoint := "events" }
  let checked := checkTimeouts now sqlInfo db
  Step.dbQuery (getDataFromDB sqlInfo) :: Step.freshCheck "events" ::
    (checked.2.map Step.dbDelete ++
      match checked.1 with
      | some result => [Step.send 200 (ResponseBody.rows result)]
      | none =>
        Step.apiFetch ("https://www.eventbriteapi.com/v3/events/search/?token=" ++ apiKey ++
            "&location.latitude=" ++ req.latitude ++ "&location.longitude=" ++ req.longitude) ::
          match up with
          | Upstream.err => handleError (JsValue.str "upstream error") true
          | Upstream.ok [] => handleError (JsValue.str "NO DATA") true
          | Upstream.ok (e :: es) =>
            let eventSummaries := (e :: es).map
              (fun ev => Event jsd ev ++ [("location_id", req.id)])
            eventSummaries.map (fun s => Step.dbInsert (saveDataToDB { sqlInfo with
                columns := joinKeys s, values := s.map Prod.snd })) ++
              [Step.send 200 (ResponseBody.objs eventSummaries)])

/-- getMovies (src/server.js lines 240-276): same pipeline over the movies
table and TMDB, except that on a hit it sends result.row — a property the
result object does not have, so the body sent is undefined, not the rows. -/
def getMovies (now : Int) (apiKey : String) (req : ReqData)
    (db : List Row) (up : Upstream RawMovie) : List Step :=
  let sqlInfo : SqlInfo := { id := req.id, endpoint := "movies" }
  let checked := checkTimeouts now sqlInfo db
  Step.dbQuery (getDataFromDB sqlInfo) :: Step.freshCheck "movies" ::
    (checked.2.map Step.dbDelete ++
      match checked.1 with
      | some _ => [Step.send 200 ResponseBody.undef]
      | none =>
        Step.apiFetch ("https://api.themoviedb.org/3/search/movie?api_key=" ++ apiKey ++
            "&language=en-US&query=" ++ req.search_query ++ "&page=1&include_adult=false") ::
          match up with
          | Upstream.err => handleError (JsValue.str "upstream error") true
          | Upstream.ok [] => handleError (JsValue.str "NO DATA") true
          | Upstream.ok (m :: ms) =>
            let movieSummaries := (m :: ms).map
              (fun movie => Movie now movie ++ [("location_id", req.id)])
            movieSummaries.map (fun s => Step.dbInsert (saveDataToDB { sqlInfo with
                columns := joinKeys s, values := s.map Prod.snd })) ++
              [Step.send 200 (ResponseBody.objs movieSummaries)])

/-- getYelp (src/server.js lines 278-312): same pipeline over the yelps table
and the Yelp provider. -/
def getYelp (now : Int) (req : ReqData)
    (db : List Row) (up : Upstream RawYelp) : List Step :=
  let sqlInfo : SqlInfo := { id := req.id, endpoint := "yelps" }
  let checked := checkTimeouts now sqlInfo db
  Step.dbQuery (getDataFromDB sqlInfo) :: Step.freshCheck "yelps" ::
    (checked.2.map Step.dbDelete ++
      match checked.1 with
      | some result => [Step.send 200 (ResponseBody.rows result)]
      | none =>
        Step.apiFetch ("https://api.yelp.com/v3/businesses/search?latitude=" ++
            req.latitude ++ "&longitude=" ++ req.longitude) ::
          match up with
          | Upstream.err => handleError (JsValue.str "upstream error") true
          | Upstream.ok [] => handleError (JsValue.str "NO DATA") true
          | Upstream.ok (b :: bs) =>
            let yelpSummaries := (b :: bs).map
              (fun biz => Yelp now biz ++ [("location_id", req.id)])
            yelpSummaries.map (fun s => Step.dbInsert (saveDataToDB { sqlInfo with
                columns := joinKeys s, values := s.map Prod.snd })) ++
              [Step.send 200 (ResponseBody.objs yelpSummaries)])

/-- Recognizes a store insert step. -/
def isInsert : Step → Bool
  | Step.dbInsert _ => true
  | _ => false

/-- Recognizes a provider fetch step. -/
def isFetch : Step → Bool
  | Step.apiFetch _ => true
  | _ => false

/-- Recognizes a consultation of the freshness evaluator. -/
def isFreshCheck : Step → Bool
  | Step.freshCheck _ => true
  | _ => false

/-- Recognizes a store delete step. -/
def isDelete : Step → Bool
  | Step.dbDelete _ => true
  | _ => false

/-- Number of provider fetches in a trace. -/
def countFetch (t : List Step) : Nat := t.countP isFetch

/-- Number of store inserts in a trace. -/
def countInsert (t : List Step) : Nat := t.countP isInsert

/-- Number of freshness-evaluator consultations in a trace. -/
def countFreshCheck (t : List Step) : Nat := t.countP isFreshCheck

/-- Number of store deletes in a trace. -/
def countDelete (t : List Step) : Nat := t.countP isDelete

/-- True when every store insert in the trace comes after a provider fetch:
scanning left to right, an insert seen before any fetch refutes it. -/
def insertsAfterFetch : List Step → Bool
  | [] => true
  | Step.dbInsert _ :: _ => false
  | Step.apiFetch _ :: _ => true
  | _ :: rest => insertsAfterFetch rest

/-- True when the trace starts with the store lookup immediately followed by
the freshness evaluation. -/
def beginsLookupThenFresh : List Step → Bool
  | Step.dbQuery _ :: Step.freshCheck _ :: _ => true
  | _ => false

/-- Comparison with NaN on the right is always false. -/
theorem jsGt_nan (x : JsNum) : jsGt x JsNum.nan = false := by
  cases x <;> rfl

/-- C9: checkTimeouts with an endpoint that is not a key of the timeouts
table (every handler passes a plural table name while the table is keyed by
singular names, so this is every real call) issues no delete and returns the
stored data unchanged whenever at least one row exists: the age comparison
against an undefined timeout is false, so the data counts as fresh at any
age. -/
theorem checkTimeouts_unknown_endpoint_returns_data (now : Int) (si : SqlInfo)
    (r : Row) (rest : List Row) (h : timeouts si.endpoint = none) :
    checkTimeouts now si (r :: rest) = (some (r :: rest), []) := by
  unfold checkTimeouts
  rw [h]
  simp [jsNumOfOption, jsGt_nan]

/-- Witness for C9: the real weathers endpoint is absent from the timeouts
table, and a 999999 ms old row is still returned with no delete issued. -/
theorem checkTimeouts_unknown_endpoint_returns_data_witness :
    timeouts "weathers" = none ∧
      checkTimeouts 999999 { id := JsValue.int 42, endpoint := "weathers" }
          [{ created_at := some 0 }] =
        (some [{ created_at := some 0 }], []) :=
  ⟨rfl, checkTimeouts_unknown_endpoint_returns_data 999999
    { id := JsValue.int 42, endpoint := "weathers" } { created_at := some 0 } [] rfl⟩

/-- C3: for an endpoint that the timeouts table does hold a TTL for, and a
first row whose created_at is a number, checkTimeouts keeps the rows (no
delete) exactly when now minus created_at is at most the TTL — the boundary
is inclusive, so a row whose age equals the TTL is returned, not evicted. -/
theorem checkTimeouts_fresh_iff_age_le (now c ttl : Int) (si : SqlInfo)
    (r : Row) (rest : List Row) (hT : timeouts si.endpoint = some ttl)
    (hC : r.created_at = some c) :
    checkTimeouts now si (r :: rest) = (some (r :: rest), []) ↔ now - c ≤ ttl := by
  simp only [checkTimeouts, hT, hC, jsNumOfOption, jsSub, jsGt]
  by_cases h : ttl < now - c
  · simp [h]
    omega
  · simp [h]
    omega

/-- Witness for C3: on the singular weather key (TTL 15000 ms) a row whose
age is exactly 15000 ms is classified fresh and returned. -/
theorem checkTimeouts_fresh_iff_age_le_witness :
    checkTimeouts 15000 { id := JsValue.int 1, endpoint := "weather" }
        [{ created_at := some 0 }] =
      (some [{ created_at := some 0 }], []) :=
  (checkTimeouts_fresh_iff_age_le 15000 0 15000
      { id := JsValue.int 1, endpoint := "weather" } { created_at := some 0 } []
      rfl rfl).mpr (by decide)

/-- C5 counterexample: the locations handler is the search-keyed resource,
yet with the empty search string (a falsy JS value) getDataFromDB selects by
location_id with the undefined id bound, not by search_query with the key
bound — the claim as stated fails at key equal to the empty string. -/
theorem getDataFromDB_empty_search_key_counterexample :
    getDataFromDB { searchQuery := JsValue.str "", endpoint := "locations" } =
      { sql := "SELECT * FROM " ++ "locations" ++ " WHERE location_id=$1;"
        values := [JsValue.undef] } ∧
    getDataFromDB { searchQuery := JsValue.str "", endpoint := "locations" } ≠
      { sql := "SELECT * FROM " ++ "locations" ++ " WHERE search_query=$1;"
        values := [JsValue.str ""] } := by
  constructor
  · rfl
  · decide

/-- C5 amended: the predicate is chosen by the JS truthiness of
sqlInfo.searchQuery, not by the resource registry: a truthy search key gives
the search_query equality with the key as the single bound parameter, and a
falsy one (absent, empty string) gives the location_id equality with
sqlInfo.id bound; in both branches the SQL text is built only from the
endpoint name, never from the key value. -/
theorem getDataFromDB_single_equality_predicate (si : SqlInfo) :
    (jsTruthy si.searchQuery = true →
      getDataFromDB si =
        { sql := "SELECT * FROM " ++ si.endpoint ++ " WHERE search_query=$1;"
          values := [si.searchQuery] }) ∧
    (jsTruthy si.searchQuery = false →
      getDataFromDB si =
        { sql := "SELECT * FROM " ++ si.endpoint ++ " WHERE location_id=$1;"
          values := [si.id] }) := by
  constructor <;> intro h <;> simp [getDataFromDB, h]

/-- Witness for the amended C5: a nonempty search key selects by
search_query with the key bound; a location id selects by location_id. -/
theorem getDataFromDB_single_equality_predicate_witness :
    getDataFromDB { searchQuery := JsValue.str "Seattle", endpoint := "locations" } =
      { sql := "SELECT * FROM " ++ "locations" ++ " WHERE search_query=$1;"
        values := [JsValue.str "Seattle"] } ∧
    getDataFromDB { id := JsValue.int 42, endpoint := "weathers" } =
      { sql := "SELECT * FROM " ++ "weathers" ++ " WHERE location_id=$1;"
        values := [JsValue.int 42] } :=
  ⟨(getDataFromDB_single_equality_predicate
      { searchQuery := JsValue.str "Seattle", endpoint := "locations" }).1 rfl,
   (getDataFromDB_single_equality_predicate
      { id := JsValue.int 42, endpoint := "weathers" }).2 rfl⟩

/-- C6 counterexample: the insert built for the weathers resource carries no
RETURNING clause at all, so the store-assigned id of the persisted row is
not returned to the orchestrator — the claim fails for every resource other
than locations. -/
theorem saveDataToDB_weather_no_returning_counterexample :
    (saveDataToDB
      { id := JsValue.int 42, endpoint := "weathers",
        columns := "forecast,time,created_at,location_id",
        values := [JsValue.str "Cloudy", JsValue.str "Mon Jan 01 2024",
          JsValue.int 0, JsValue.int 42] }).sql =
      "INSERT INTO weathers (forecast,time,created_at,location_id) VALUES ($1,$2,$3,$4);" ∧
    (saveDataToDB
      { id := JsValue.int 42, endpoint := "weathers",
        columns := "forecast,time,created_at,location_id",
        values := [JsValue.str "Cloudy", JsValue.str "Mon Jan 01 2024",
          JsValue.int 0, JsValue.int 42] }).sql ≠
      "INSERT INTO weathers (forecast,time,created_at,location_id) VALUES ($1,$2,$3,$4) RETURNING ID;" := by
  constructor
  · rfl
  · decide

/-- C6 amended: only the searchQuery branch of saveDataToDB — taken only by
the locations handler — appends RETURNING ID, and it returns the id alone,
not the whole persisted row; the branch used by every other resource type
builds a plain insert that returns nothing. -/
theorem saveDataToDB_returning_id_only_for_search_key (si : SqlInfo) :
    (jsTruthy si.searchQuery = true →
      saveDataToDB si =
        { sql := "INSERT INTO " ++ si.endpoint ++ " (" ++ si.columns ++
            ") VALUES (" ++ sqlPlaceholders si.values.length ++ ") RETURNING ID;"
          values := si.values }) ∧
    (jsTruthy si.searchQuery = false →
      saveDataToDB si =
        { sql := "INSERT INTO " ++ si.endpoint ++ " (" ++ si.columns ++
            ") VALUES (" ++ sqlPlaceholders si.values.length ++ ");"
          values := si.values }) := by
  constructor <;> intro h <;> simp [saveDataToDB, h]

/-- Witness for the amended C6: the locations insert ends in RETURNING ID,
the weathers insert does not. -/
theorem saveDataToDB_returning_id_only_for_search_key_witness :
    saveDataToDB
      { searchQuery := JsValue.str "Seattle", endpoint := "locations",
        columns := "search_query,formatted_query,latitude,longitude",
        values := [JsValue.str "Seattle", JsValue.str "Seattle, WA, USA",
          JsValue.int 47, JsValue.int (-122)] } =
      { sql := "INSERT INTO " ++ "locations" ++ " (" ++
          "search_query,formatted_query,latitude,longitude" ++
          ") VALUES (" ++ sqlPlaceholders 4 ++ ") RETURNING ID;"
        values := [JsValue.str "Seattle", JsValue.str "Seattle, WA, USA",
          JsValue.int 47, JsValue.int (-122)] } ∧
    saveDataToDB
      { id := JsValue.int 42, endpoint := "weathers",
        columns := "forecast,time,created_at,location_id",
        values := [JsValue.str "Cloudy", JsValue.int 0] } =
      { sql := "INSERT INTO " ++ "weathers" ++ " (" ++
          "forecast,time,created_at,location_id" ++
          ") VALUES (" ++ sqlPlaceholders 2 ++ ");"
        values := [JsValue.str "Cloudy", JsValue.int 0] } :=
  ⟨(saveDataToDB_returning_id_only_for_search_key
        { searchQuery := JsValue.str "Seattle", endpoint := "locations",
          columns := "search_query,formatted_query,latitude,longitude",
          values := [JsValue.str "Seattle", JsValue.str "Seattle, WA, USA",
            JsValue.int 47, JsValue.int (-122)] }).1 rfl,
   (saveDataToDB_returning_id_only_for_search_key
        { id := JsValue.int 42, endpoint := "weathers",
          columns := "forecast,time,created_at,location_id",
          values := [JsValue.str "Cloudy", JsValue.int 0] }).2 rfl⟩

@[simp] theorem isInsert_dbQuery (q : SqlQuery) : isInsert (Step.dbQuery q) = false := rfl

@[simp] theorem isInsert_freshCheck (s : String) : isInsert (Step.freshCheck s) = false := rfl

@[simp] theorem isInsert_dbDelete (q : SqlQuery) : isInsert (Step.dbDelete q) = false := rfl

@[simp] theorem isInsert_apiFetch (u : String) : isInsert (Step.apiFetch u) = false := rfl

@[simp] theorem isInsert_dbInsert (q : SqlQuery) : isInsert (Step.dbInsert q) = true := rfl

@[simp] theorem isInsert_send (n : Nat) (b : ResponseBody) : isInsert (Step.send n b) = false := rfl

@[simp] theorem isFetch_dbQuery (q : SqlQuery) : isFetch (Step.dbQuery q) = false := rfl

@[simp] theorem isFetch_freshCheck (s : String) : isFetch (Step.freshCheck s) = false := rfl

@[simp] theorem isFetch_dbDelete (q : SqlQuery) : isFetch (Step.dbDelete q) = false := rfl

@[simp] theorem isFetch_apiFetch (u : String) : isFetch (Step.apiFetch u) = true := rfl

@[simp] theorem isFetch_dbInsert (q : SqlQuery) : isFetch (Step.dbInsert q) = false := rfl

@[simp] theorem isFetch_send (n : Nat) (b : ResponseBody) : isFetch (Step.send n b) = false := rfl

@[simp] theorem isFreshCheck_dbQuery (q : SqlQuery) : isFreshCheck (Step.dbQuery q) = false := rfl

@[simp] theorem isFreshCheck_freshCheck (s : String) : isFreshCheck (Step.freshCheck s) = true := rfl

@[simp] theorem isFreshCheck_dbDelete (q : SqlQuery) : isFreshCheck (Step.dbDelete q) = false := rfl

@[simp] theorem isFreshCheck_apiFetch (u : String) : isFreshCheck (Step.apiFetch u) = false := rfl

@[simp] theorem isFreshCheck_dbInsert (q : SqlQuery) : isFreshCheck (Step.dbInsert q) = false := rfl

@[simp] theorem isFreshCheck_send (n : Nat) (b : ResponseBody) : isFreshCheck (Step.send n b) = false := rfl

@[simp] theorem isDelete_dbQuery (q : SqlQuery) : isDelete (Step.dbQuery q) = false := rfl

@[simp] theorem isDelete_freshCheck (s : String) : isDelete (Step.freshCheck s) = false := rfl

@[simp] theorem isDelete_dbDelete (q : SqlQuery) : isDelete (Step.dbDelete q) = true := rfl

@[simp] theorem isDelete_apiFetch (u : String) : isDelete (Step.apiFetch u) = false := rfl

@[simp] theorem isDelete_dbInsert (q : SqlQuery) : isDelete (Step.dbInsert q) = false := rfl

@[simp] theorem isDelete_send (n : Nat) (b : ResponseBody) : isDelete (Step.send n b) = false := rfl

@[simp] theorem insertsAfterFetch_nil : insertsAfterFetch [] = true := rfl

@[simp] theorem insertsAfterFetch_dbQuery (q : SqlQuery) (t : List Step) :
    insertsAfterFetch (Step.dbQuery q :: t) = insertsAfterFetch t := rfl

@[simp] theorem insertsAfterFetch_freshCheck (s : String) (t : List Step) :
    insertsAfterFetch (Step.freshCheck s :: t) = insertsAfterFetch t := rfl

@[simp] theorem insertsAfterFetch_dbDelete (q : SqlQuery) (t : List Step) :
    insertsAfterFetch (Step.dbDelete q :: t) = insertsAfterFetch t := rfl

@[simp] theorem insertsAfterFetch_send (n : Nat) (b : ResponseBody) (t : List Step) :
    insertsAfterFetch (Step.send n b :: t) = insertsAfterFetch t := rfl

@[simp] theorem insertsAfterFetch_apiFetch (u : String) (t : List Step) :
    insertsAfterFetch (Step.apiFetch u :: t) = true := rfl

@[simp] theorem insertsAfterFetch_dbInsert (q : SqlQuery) (t : List Step) :
    insertsAfterFetch (Step.dbInsert q :: t) = false := rfl

@[simp] theorem insertsAfterFetch_map_dbDelete (l : List SqlQuery) (t : List Step) :
    insertsAfterFetch (l.map Step.dbDelete ++ t) = insertsAfterFetch t := by
  induction l with
  | nil => rfl
  | cons a l ih => simpa using ih

@[simp] theorem countP_isFetch_map_dbDelete (l : List SqlQuery) :
    (l.map Step.dbDelete).countP isFetch = 0 := by
  induction l with
  | nil => rfl
  | cons a l ih => simp [List.countP_cons, ih]

@[simp] theorem countP_isInsert_map_dbDelete (l : List SqlQuery) :
    (l.map Step.dbDelete).countP isInsert = 0 := by
  induction l with
  | nil => rfl
  | cons a l ih => simp [List.countP_cons, ih]

@[simp] theorem countP_isFreshCheck_map_dbDelete (l : List SqlQuery) :
    (l.map Step.dbDelete).countP isFreshCheck = 0 := by
  induction l with
  | nil => rfl
  | cons a l ih => simp [List.countP_cons, ih]

@[simp] theorem countP_isFetch_map_dbInsert {α : Type} (f : α → SqlQuery) (l : List α) :
    (l.map (fun a => Step.dbInsert (f a))).countP isFetch = 0 := by
  induction l with
  | nil => rfl
  | cons a l ih => simp [List.countP_cons, ih]

@[simp] theorem countP_isFreshCheck_map_dbInsert {α : Type} (f : α → SqlQuery) (l : List α) :
    (l.map (fun a => Step.dbInsert (f a))).countP isFreshCheck = 0 := by
  induction l with
  | nil => rfl
  | cons a l ih => simp [List.countP_cons, ih]

@[simp] theorem countP_isFetch_comp_dbDelete (l : List SqlQuery) :
    l.countP (isFetch ∘ Step.dbDelete) = 0 := by
  induction l with
  | nil => rfl
  | cons a l ih => simp [List.countP_cons, Function.comp, ih]

@[simp] theorem countP_isInsert_comp_dbDelete (l : List SqlQuery) :
    l.countP (isInsert ∘ Step.dbDelete) = 0 := by
  induction l with
  | nil => rfl
  | cons a l ih => simp [List.countP_cons, Function.comp, ih]

@[simp] theorem countP_isFreshCheck_comp_dbDelete (l : List SqlQuery) :
    l.countP (isFreshCheck ∘ Step.dbDelete) = 0 := by
  induction l with
  | nil => rfl
  | cons a l ih => simp [List.countP_cons, Function.comp, ih]

/-- C1: code bug. The timeouts table is keyed by singular names while every
handler passes its plural table name as the endpoint, so the TTL lookup is
undefined and the age comparison is false: a weathers row aged 16000 ms —
past the documented 15-second weather TTL — is returned as fresh, with no
delete issued and no provider fetch performed, contradicting the eviction
the code itself documents. -/
theorem getWeather_stale_rows_not_evicted :
    getWeather { fromMillis := fun _ => "", fromString := fun _ => "" } 16000 "KEY"
        { id := JsValue.int 42, latitude := "47", longitude := "-122" }
        [{ created_at := some 0 }] (Upstream.ok []) =
      [Step.dbQuery
          { sql := "SELECT * FROM " ++ "weathers" ++ " WHERE location_id=$1;",
            values := [JsValue.int 42] },
        Step.freshCheck "weathers",
        Step.send 200 (ResponseBody.rows [{ created_at := some 0 }])] ∧
    countDelete
        (getWeather { fromMillis := fun _ => "", fromString := fun _ => "" } 16000 "KEY"
          { id := JsValue.int 42, latitude := "47", longitude := "-122" }
          [{ created_at := some 0 }] (Upstream.ok [])) = 0 ∧
    countFetch
        (getWeather { fromMillis := fun _ => "", fromString := fun _ => "" } 16000 "KEY"
          { id := JsValue.int 42, latitude := "47", longitude := "-122" }
          [{ created_at := some 0 }] (Upstream.ok [])) = 0 := by
  refine ⟨rfl, rfl, rfl⟩

/-- C2: code bug. On a fresh movies hit the handler sends result.row — a
property the result object does not have — so the caller receives undefined
rather than the cached rows; no fetch and no write occur, but the returned
body is not the cached rows. Every sibling handler sends result.rows. -/
theorem getMovies_fresh_hit_sends_undefined :
    getMovies 5000 "KEY" { id := JsValue.int 42, search_query := "ring" }
        [{ created_at := some 0 }] (Upstream.ok []) =
      [Step.dbQuery
          { sql := "SELECT * FROM " ++ "movies" ++ " WHERE location_id=$1;",
            values := [JsValue.int 42] },
        Step.freshCheck "movies",
        Step.send 200 ResponseBody.undef] ∧
    ResponseBody.undef ≠ ResponseBody.rows [{ created_at := some 0 }] := by
  refine ⟨rfl, by decide⟩

/-- C4 counterexample: at a concrete cold-miss input, the trace of getWeather
when the provider returns an empty result set is identical to its trace when
the provider fails — both end in the same 500 response through handleError —
so the caller cannot distinguish NoUpstreamData from UpstreamError. -/
theorem getWeather_empty_data_matches_error_response :
    getWeather { fromMillis := fun _ => "", fromString := fun _ => "" } 0 "KEY"
        { id := JsValue.int 42, latitude := "47", longitude := "-122" } []
        (Upstream.ok []) =
      getWeather { fromMillis := fun _ => "", fromString := fun _ => "" } 0 "KEY"
        { id := JsValue.int 42, latitude := "47", longitude := "-122" } []
        Upstream.err := rfl

/-- C4 amended: when the provider returns an empty result set, no resource
handler writes anything to the store — but the failure the caller observes
is exactly the failure it observes on an upstream error (the identical
handleError 500 response), not a distinguishable one. -/
theorem noUpstreamData_no_write_same_as_error
    (jsd : JsDateLib) (now : Int) (wKey eKey mKey gKey : String) (req : ReqData)
    (db : List Row) (qd aid : JsValue) :
    (getWeather jsd now wKey req db (Upstream.ok []) =
        getWeather jsd now wKey req db Upstream.err ∧
      countInsert (getWeather jsd now wKey req db (Upstream.ok [])) = 0) ∧
    (getEvents jsd now eKey req db (Upstream.ok []) =
        getEvents jsd now eKey req db Upstream.err ∧
      countInsert (getEvents jsd now eKey req db (Upstream.ok [])) = 0) ∧
    (getMovies now mKey req db (Upstream.ok []) =
        getMovies now mKey req db Upstream.err ∧
      countInsert (getMovies now mKey req db (Upstream.ok [])) = 0) ∧
    (getYelp now req db (Upstream.ok []) =
        getYelp now req db Upstream.err ∧
      countInsert (getYelp now req db (Upstream.ok [])) = 0) ∧
    (searchToLatLong gKey qd db (Upstream.ok []) aid =
        searchToLatLong gKey qd db Upstream.err aid ∧
      countInsert (searchToLatLong gKey qd db (Upstream.ok []) aid) = 0) := by
  refine ⟨⟨?_, ?_⟩, ⟨?_, ?_⟩, ⟨?_, ?_⟩, ⟨?_, ?_⟩, ⟨?_, ?_⟩⟩
  · unfold getWeather
    cases h : (checkTimeouts now { id := req.id, endpoint := "weathers" } db).1 <;> simp [h, handleError]
  · unfold getWeather countInsert
    cases h : (checkTimeouts now { id := req.id, endpoint := "weathers" } db).1 <;>
      simp [h, handleError, List.countP_cons, List.countP_append, Function.comp]
  · unfold getEvents
    cases h : (checkTimeouts now { id := req.id, endpoint := "events" } db).1 <;> simp [h, handleError]
  · unfold getEvents countInsert
    cases h : (checkTimeouts now { id := req.id, endpoint := "events" } db).1 <;>
      simp [h, handleError, List.countP_cons, List.countP_append, Function.comp]
  · unfold getMovies
    cases h : (checkTimeouts now { id := req.id, endpoint := "movies" } db).1 <;> simp [h, handleError]
  · unfold getMovies countInsert
    cases h : (checkTimeouts now { id := req.id, endpoint := "movies" } db).1 <;>
      simp [h, handleError, List.countP_cons, List.countP_append, Function.comp]
  · unfold getYelp
    cases h : (checkTimeouts now { id := req.id, endpoint := "yelps" } db).1 <;> simp [h, handleError]
  · unfold getYelp countInsert
    cases h : (checkTimeouts now { id := req.id, endpoint := "yelps" } db).1 <;>
      simp [h, handleError, List.countP_cons, List.countP_append, Function.comp]
  · unfold searchToLatLong
    cases db <;> simp [handleError]
  · unfold searchToLatLong countInsert
    cases db <;> simp [handleError, List.countP_cons, List.countP_append, Function.comp]

/-- C7: code bug. The Event constructor produces rows with keys link, name,
event_date, summary (plus the location_id the handler appends) and no
created_at, while the Weather, Movie and Yelp constructors all set
created_at — yet the events handler runs its rows through checkTimeouts,
whose age computation needs created_at. -/
theorem Event_rows_lack_created_at :
    (∀ (jsd : JsDateLib) (ev : RawEvent) (locId : JsValue),
      (Event jsd ev ++ [("location_id", locId)]).map Prod.fst =
          ["link", "name", "event_date", "summary", "location_id"] ∧
        "created_at" ∉ (Event jsd ev ++ [("location_id", locId)]).map Prod.fst) ∧
    (∀ (jsd : JsDateLib) (now : Int) (day : RawWeatherDay),
      "created_at" ∈ (Weather jsd now day).map Prod.fst) ∧
    (∀ (now : Int) (m : RawMovie), "created_at" ∈ (Movie now m).map Prod.fst) ∧
    (∀ (now : Int) (y : RawYelp), "created_at" ∈ (Yelp now y).map Prod.fst) := by
  refine ⟨fun jsd ev locId => ⟨?_, ?_⟩, fun jsd now day => ?_, fun now m => ?_,
    fun now y => ?_⟩ <;> simp [Event, Weather, Movie, Yelp]

/-- C8 counterexample: on a locations hit the handler sends the first cached
row immediately after the store lookup — the freshness evaluator is never
consulted, refuting the claim that every hit passes through it. -/
theorem searchToLatLong_hit_without_freshness_check :
    searchToLatLong "KEY" (JsValue.str "Seattle") [{ id := JsValue.int 7 }]
        (Upstream.ok []) JsValue.undef =
      [Step.dbQuery
          { sql := "SELECT * FROM " ++ "locations" ++ " WHERE search_query=$1;",
            values := [JsValue.str "Seattle"] },
        Step.send 200 (ResponseBody.row { id := JsValue.int 7 })] ∧
    countFreshCheck
        (searchToLatLong "KEY" (JsValue.str "Seattle") [{ id := JsValue.int 7 }]
          (Upstream.ok []) JsValue.undef) = 0 := by
  refine ⟨rfl, rfl⟩

/-- C8 amended: the four location-keyed handlers always issue the store
lookup first and consult the freshness evaluator second, perform at most one
provider fetch, and issue every insert only after the fetch; the locations
handler is the exception — it never consults the freshness evaluator at
all. -/
theorem handlers_lookup_fresh_fetch_insert_order
    (jsd : JsDateLib) (now : Int) (wKey eKey mKey gKey : String) (req : ReqData)
    (db : List Row) (upW : Upstream RawWeatherDay) (upE : Upstream RawEvent)
    (upM : Upstream RawMovie) (upY : Upstream RawYelp) (upL : Upstream RawGeo)
    (qd aid : JsValue) :
    (beginsLookupThenFresh (getWeather jsd now wKey req db upW) = true ∧
      insertsAfterFetch (getWeather jsd now wKey req db upW) = true ∧
      countFetch (getWeather jsd now wKey req db upW) ≤ 1) ∧
    (beginsLookupThenFresh (getEvents jsd now eKey req db upE) = true ∧
      insertsAfterFetch (getEvents jsd now eKey req db upE) = true ∧
      countFetch (getEvents jsd now eKey req db upE) ≤ 1) ∧
    (beginsLookupThenFresh (getMovies now mKey req db upM) = true ∧
      insertsAfterFetch (getMovies now mKey req db upM) = true ∧
      countFetch (getMovies now mKey req db upM) ≤ 1) ∧
    (beginsLookupThenFresh (getYelp now req db upY) = true ∧
      insertsAfterFetch (getYelp now req db upY) = true ∧
      countFetch (getYelp now req db upY) ≤ 1) ∧
    countFreshCheck (searchToLatLong gKey qd db upL aid) = 0 := by
  refine ⟨⟨?_, ?_, ?_⟩, ⟨?_, ?_, ?_⟩, ⟨?_, ?_, ?_⟩, ⟨?_, ?_, ?_⟩, ?_⟩
  · unfold getWeather beginsLookupThenFresh
    rfl
  · unfold getWeather
    cases h : (checkTimeouts now { id := req.id, endpoint := "weathers" } db).1 <;>
      rcases upW with (_ | ⟨d, ds⟩) | _ <;> simp [h, handleError]
  · unfold getWeather countFetch
    cases h : (checkTimeouts now { id := req.id, endpoint := "weathers" } db).1 <;>
      rcases upW with (_ | ⟨d, ds⟩) | _ <;>
        simp [h, handleError, List.countP_cons, List.countP_append, Function.comp]
  · unfold getEvents beginsLookupThenFresh
    rfl
  · unfold getEvents
    cases h : (checkTimeouts now { id := req.id, endpoint := "events" } db).1 <;>
      rcases upE with (_ | ⟨e, es⟩) | _ <;> simp [h, handleError]
  · unfold getEvents countFetch
    cases h : (checkTimeouts now { id := req.id, endpoint := "events" } db).1 <;>
      rcases upE with (_ | ⟨e, es⟩) | _ <;>
        simp [h, handleError, List.countP_cons, List.countP_append, Function.comp]
  · unfold getMovies beginsLookupThenFresh
    rfl
  · unfold getMovies
    cases h : (checkTimeouts now { id := req.id, endpoint := "movies" } db).1 <;>
      rcases upM with (_ | ⟨m, ms⟩) | _ <;> simp [h, handleError]
  · unfold getMovies countFetch
    cases h : (checkTimeouts now { id := req.id, endpoint := "movies" } db).1 <;>
      rcases upM with (_ | ⟨m, ms⟩) | _ <;>
        simp [h, handleError, List.countP_cons, List.countP_append, Function.comp]
  · unfold getYelp beginsLookupThenFresh
    rfl
  · unfold getYelp
    cases h : (checkTimeouts now { id := req.id, endpoint := "yelps" } db).1 <;>
      rcases upY with (_ | ⟨b, bs⟩) | _ <;> simp [h, handleError]
  · unfold getYelp countFetch
    cases h : (checkTimeouts now { id := req.id, endpoint := "yelps" } db).1 <;>
      rcases upY with (_ | ⟨b, bs⟩) | _ <;>
        simp [h, handleError, List.countP_cons, List.countP_append, Function.comp]
  · unfold searchToLatLong countFreshCheck
    cases db <;> rcases upL with (_ | ⟨g, gs⟩) | _ <;>
      simp [handleError, List.countP_cons, List.countP_append, Function.comp]

/-- C10: on any locations hit the handler sends exactly the first matching
row — never the full row set — and the trace contains no freshness
evaluation at all. -/
theorem searchToLatLong_hit_sends_first_row (geoKey : String) (qd : JsValue)
    (r : Row) (rest : List Row) (up : Upstream RawGeo) (aid : JsValue) :
    searchToLatLong geoKey qd (r :: rest) up aid =
      [Step.dbQuery (getDataFromDB { searchQuery := qd, endpoint := "locations" }),
        Step.send 200 (ResponseBody.row r)] ∧
    countFreshCheck (searchToLatLong geoKey qd (r :: rest) up aid) = 0 := by
  refine ⟨rfl, rfl⟩

end CityExplorer
